import Mathlib

/-!
Verification of the IridiumSBD transmission-queue orchestrator
(`src/Transports/IridiumSBD/Task.cpp`): the request queue, the single
active transmission request, session-result resolution and the per-cycle
decision function `processQueue`.

The orchestrator's observable actions (status dispatches, inbound message
dispatches, driver commands) are recorded as a list of `Event`s; driver
readings are an input record consumed read-only by one cycle.
-/

/-- Status codes of `IMC::IridiumTxStatus` used by the task. -/
inductive StatusCode where
  | queued
  | ok
  | error
deriving DecidableEq, Repr

/-- Status texts produced by the task, kept symbolic: the empty text, the
shutdown reason `"task is shutting down"`, and `"failed with error %u"`
carrying the driver's numeric MO status code. -/
inductive StatusText where
  | empty
  | shuttingDown
  | failedWithError (code : Nat)
deriving DecidableEq, Repr

/-- Modelled from the spec: `TxRequest.hpp` is not among the provided
sources.  Fields follow §3 of the spec: identity and origin
(`req_id`, `src`, `src_ent`, `dst`), the priority key `ttl`
(`time_to_live`), the opaque `data` payload, and the transient in-flight
state `msn` (`assigned_sequence_number`) with its validity flag
`msn_valid` (`sequence_number_valid`). -/
structure TxRequest where
  req_id : Nat
  src : Nat
  src_ent : Nat
  dst : Nat
  ttl : Nat
  data : List Nat
  msn : Nat
  msn_valid : Bool
deriving DecidableEq, Repr

/-- Modelled from the spec: `setMSN` stores a freshly assigned sequence
number and makes it valid. -/
def TxRequest.setMSN (r : TxRequest) (m : Nat) : TxRequest :=
  { r with msn := m, msn_valid := true }

/-- Modelled from the spec: `invalidateMSN` marks the assigned sequence
number invalid (used on transmission failure). -/
def TxRequest.invalidateMSN (r : TxRequest) : TxRequest :=
  { r with msn_valid := false }

/-- Modelled from the spec: `hasValidMSN` reads the validity flag. -/
def TxRequest.hasValidMSN (r : TxRequest) : Bool :=
  r.msn_valid

/-- `getTimeToLive` accessor. -/
def TxRequest.getTimeToLive (r : TxRequest) : Nat :=
  r.ttl

/-- Modelled from the spec: the mailbox-check timer
(`Counter<double> m_mbox_check_timer`, from the DUNE library, not among
the provided sources).  `elapsed` is the time since the last reset and
`top` the configured period; `overflow` holds once `elapsed` reaches
`top`, and `reset` restarts the count. -/
structure Counter where
  elapsed : Nat
  top : Nat
deriving DecidableEq, Repr

/-- The timer has overflowed: the configured period has elapsed. -/
def Counter.overflow (c : Counter) : Bool :=
  decide (c.top ≤ c.elapsed)

/-- Restart the timer. -/
def Counter.reset (c : Counter) : Counter :=
  { c with elapsed := 0 }

/-- Session outcome read from the driver (`SessionResult`): MO success
flag, MO sequence number, MO status code, MT status code. -/
structure SessionResult where
  mo_success : Bool
  mo_sequence : Nat
  mo_status : Nat
  mt_status : Nat
deriving DecidableEq, Repr

/-- Modelled from the spec: the driver contract (§6) as read by one cycle
of the orchestrator.  `session_result` is `none` when
`hasSessionResult()` is false; `momsn` is the sequence number
`getMOMSN()` would allocate; `mt_buffer` is the byte sequence a
`readBufferMT` call would yield this cycle. -/
structure DriverState where
  busy : Bool
  session_result : Option SessionResult
  rssi : Nat
  cooling : Bool
  ring_alert : Bool
  queued_mt : Nat
  momsn : Nat
  mt_buffer : List Nat
deriving DecidableEq, Repr

/-- Observable actions of one cycle: status dispatches
(`sendTxRequestStatus`), inbound message dispatches (`IridiumMsgRx`),
and driver commands. -/
inductive Event where
  | txStatus (dst : Nat) (dst_ent : Nat) (req_id : Nat)
      (code : StatusCode) (text : StatusText)
  | msgRx (src : Nat) (dst : Nat) (payload : List Nat)
  | clearBufferMO
  | checkMailBoxAlert
  | checkMailBox
  | sendSBD (payload : List Nat)
  | errLog (size : Nat)
deriving DecidableEq, Repr

/-- Mutable state of the task: the request queue `m_tx_requests`, the
active request `m_tx_request` (a nullable pointer in the source), and the
mailbox-check timer. -/
structure TaskState where
  tx_requests : List TxRequest
  tx_request : Option TxRequest
  mbox_check_timer : Counter
deriving DecidableEq, Repr

/-- `Task::sendTxRequestStatus`: build the status dispatch for a request
(destination is the request's origin). -/
def sendTxRequestStatus (r : TxRequest) (code : StatusCode)
    (text : StatusText) : Event :=
  Event.txStatus r.src r.src_ent r.req_id code text

/-- `Task::enqueueTxRequest`: walk the queue and insert the request
before the first element whose `time_to_live` is strictly greater;
append at the end otherwise. -/
def enqueueTxRequest (request : TxRequest) : List TxRequest → List TxRequest
  | [] => [request]
  | r :: rest =>
    if request.getTimeToLive < r.getTimeToLive then
      request :: r :: rest
    else
      r :: enqueueTxRequest request rest

/-- `Task::dequeueTxRequest`: no-op unless an active request exists with
a valid sequence number equal to `msn`; then clear the MO buffer, report
OK and free the active slot. -/
def dequeueTxRequest (msn : Nat) (s : TaskState) : TaskState × List Event :=
  match s.tx_request with
  | none => (s, [])
  | some r =>
    if !r.hasValidMSN || r.msn != msn then
      (s, [])
    else
      ({ s with tx_request := none },
       [Event.clearBufferMO,
        sendTxRequestStatus r StatusCode.ok StatusText.empty])

/-- `Task::invalidateTxRequest`: no-op unless an active request exists
with a valid sequence number equal to `msn`; then invalidate the
sequence number, report ERROR with the numeric code, reinsert the
request into the queue and free the active slot. -/
def invalidateTxRequest (msn : Nat) (err_code : Nat) (s : TaskState) :
    TaskState × List Event :=
  match s.tx_request with
  | none => (s, [])
  | some r =>
    if !r.hasValidMSN || r.msn != msn then
      (s, [])
    else
      let r2 := r.invalidateMSN
      ({ s with
           tx_request := none,
           tx_requests := enqueueTxRequest r2 s.tx_requests },
       [sendTxRequestStatus r2 StatusCode.error
          (StatusText.failedWithError err_code)])

/-- `Task::handleSBD`: read the MT buffer; with strictly more than two
bytes, dispatch an inbound message whose source is the first two bytes
big-endian and whose payload is the rest; otherwise log an error. -/
def handleSBD (system_id : Nat) (bfr : List Nat) : List Event :=
  match bfr with
  | b0 :: b1 :: b2 :: rest =>
    [Event.msgRx (Nat.lor (Nat.shiftLeft b0 8) b1) system_id (b2 :: rest)]
  | _ => [Event.errLog bfr.length]

/-- `Task::handleSessionResult`: on MO success reset the mailbox-check
timer and confirm the matching request; on MO failure invalidate the
matching request; independently, handle an inbound message when the MT
status is 1. -/
def handleSessionResult (res : SessionResult) (system_id : Nat)
    (mt_buffer : List Nat) (s : TaskState) : TaskState × List Event :=
  let step :=
    if res.mo_success then
      dequeueTxRequest res.mo_sequence
        { s with mbox_check_timer := s.mbox_check_timer.reset }
    else
      invalidateTxRequest res.mo_sequence res.mo_status s
  if res.mt_status == 1 then
    (step.1, step.2 ++ handleSBD system_id mt_buffer)
  else
    step

/-- `Task::processQueue`: the per-cycle decision.  Do nothing while the
driver is busy; resolve an available session result; stop without RSSI
or while cooling; with an empty queue, poll the mailbox (ring alert
first); with a non-empty queue, pop the head, assign it the driver's
next sequence number and submit its payload.  The source leaves
`m_tx_request` untouched in the send branch, so the popped request is
dropped from the task state. -/
def processQueue (d : DriverState) (system_id : Nat) (s : TaskState) :
    TaskState × List Event :=
  if d.busy then
    (s, [])
  else
    let step :=
      match d.session_result with
      | some res => handleSessionResult res system_id d.mt_buffer s
      | none => (s, [])
    if d.rssi == 0 then
      step
    else if d.cooling then
      step
    else
      match step.1.tx_requests with
      | [] =>
        if d.ring_alert then
          (step.1, step.2 ++ [Event.checkMailBoxAlert])
        else if d.queued_mt > 0 || step.1.mbox_check_timer.overflow then
          (step.1, step.2 ++ [Event.checkMailBox])
        else
          step
      | request :: rest =>
        let request2 := request.setMSN d.momsn
        ({ step.1 with tx_requests := rest },
         step.2 ++ [Event.sendSBD request2.data])

/-- `Task::~Task`: free the active request without reporting, then drain
the queue, reporting ERROR with the shutdown reason for each queued
request. -/
def taskShutdown (s : TaskState) : TaskState × List Event :=
  ({ s with tx_request := none, tx_requests := [] },
   s.tx_requests.map fun r =>
     sendTxRequestStatus r StatusCode.error StatusText.shuttingDown)

/-- An ERROR status dispatch. -/
def isErrorStatus : Event → Bool
  | Event.txStatus _ _ _ StatusCode.error _ => true
  | _ => false

/-- A mailbox poll command (either kind). -/
def isMailboxPoll : Event → Bool
  | Event.checkMailBoxAlert => true
  | Event.checkMailBox => true
  | _ => false

/-- Concrete request with `time_to_live` 5 (first to arrive). -/
def reqT5 : TxRequest := ⟨100, 10, 2, 20, 5, [5], 0, false⟩

/-- Concrete request with `time_to_live` 1 (second to arrive). -/
def reqT1a : TxRequest := ⟨101, 10, 2, 20, 1, [1], 0, false⟩

/-- Concrete request with `time_to_live` 3 (third to arrive). -/
def reqT3 : TxRequest := ⟨102, 10, 2, 20, 3, [3], 0, false⟩

/-- Concrete request with `time_to_live` 1 (fourth to arrive). -/
def reqT1b : TxRequest := ⟨103, 10, 2, 20, 1, [4], 0, false⟩

@[simp]
theorem TxRequest.getTimeToLive_eq (r : TxRequest) : r.getTimeToLive = r.ttl :=
  rfl

/-- C1: at a concrete cycle with one queued request, the driver idle, a
nonzero RSSI, no cooldown and no pending session result, the head
request is removed from the queue and its payload submitted via
`sendSBD`, but the active slot is left empty and the request is dropped
from the task state: the source never assigns the dequeued request to
`m_tx_request`, contrary to the claim that it is stored as the new
single active request. -/
theorem processQueue_send_leaves_active_slot_empty :
    processQueue ⟨false, none, 5, false, false, 0, 42, []⟩ 3
        ⟨[reqT1a], none, ⟨0, 300⟩⟩ =
      (⟨[], none, ⟨0, 300⟩⟩, [Event.sendSBD [1]]) := by
  decide

/-- C2: two consecutive concrete cycles.  The first cycle dequeues a
request and submits it (sequence number 42).  In the second cycle the
driver reports the MO failure of that very session (sequence 42), but
no active request exists — the source never stored one — so no
resolution status is produced, and the same cycle performs a second
dequeue-driven send while the first request is still unresolved.  The
claimed at-most-one-active discipline is not maintained by the source. -/
theorem processQueue_second_send_while_unresolved :
    processQueue ⟨false, none, 5, false, false, 0, 42, []⟩ 3
        ⟨[reqT1a, reqT3], none, ⟨0, 300⟩⟩ =
      (⟨[reqT3], none, ⟨0, 300⟩⟩, [Event.sendSBD [1]]) ∧
    processQueue ⟨false, some ⟨false, 42, 7, 0⟩, 5, false, false, 0, 43, []⟩ 3
        ⟨[reqT3], none, ⟨0, 300⟩⟩ =
      (⟨[], none, ⟨0, 300⟩⟩, [Event.sendSBD [3]]) := by
  decide

/-- C3 counterexample: shutting down with two queued requests and one
active emits exactly two ERROR statuses, not the claimed three — the
active request is freed without any status report. -/
theorem taskShutdown_emits_two_error_statuses :
    ((taskShutdown ⟨[reqT1a, reqT3], some (reqT5.setMSN 42), ⟨0, 300⟩⟩).2.countP
        isErrorStatus = 2) ∧
    ¬ ((taskShutdown ⟨[reqT1a, reqT3], some (reqT5.setMSN 42), ⟨0, 300⟩⟩).2.countP
        isErrorStatus = 3) := by
  decide

/-- C3 amended: on shutdown with two queued requests and one active,
exactly two ERROR statuses are emitted — one per queued request, with
the shutdown reason text — while the active request is discarded without
any status; afterward the queue and the active slot are both empty. -/
theorem taskShutdown_reports_only_queued (s : TaskState) (q1 q2 a : TxRequest)
    (hq : s.tx_requests = [q1, q2]) (ha : s.tx_request = some a) :
    (taskShutdown s).2 =
      [sendTxRequestStatus q1 StatusCode.error StatusText.shuttingDown,
       sendTxRequestStatus q2 StatusCode.error StatusText.shuttingDown] ∧
    (taskShutdown s).2.countP isErrorStatus = 2 ∧
    (taskShutdown s).1.tx_requests = [] ∧
    (taskShutdown s).1.tx_request = none := by
  simp [taskShutdown, hq, sendTxRequestStatus, isErrorStatus]

/-- Witness for the amended C3 at a concrete shutdown state. -/
theorem taskShutdown_reports_only_queued_witness :
    (taskShutdown ⟨[reqT1a, reqT3], some reqT5, ⟨0, 300⟩⟩).2 =
      [sendTxRequestStatus reqT1a StatusCode.error StatusText.shuttingDown,
       sendTxRequestStatus reqT3 StatusCode.error StatusText.shuttingDown] ∧
    (taskShutdown ⟨[reqT1a, reqT3], some reqT5, ⟨0, 300⟩⟩).2.countP
        isErrorStatus = 2 ∧
    (taskShutdown ⟨[reqT1a, reqT3], some reqT5, ⟨0, 300⟩⟩).1.tx_requests = [] ∧
    (taskShutdown ⟨[reqT1a, reqT3], some reqT5, ⟨0, 300⟩⟩).1.tx_request = none :=
  taskShutdown_reports_only_queued _ reqT1a reqT3 reqT5 rfl rfl

theorem mem_enqueueTxRequest {x request : TxRequest} {l : List TxRequest} :
    x ∈ enqueueTxRequest request l ↔ x = request ∨ x ∈ l := by
  induction l with
  | nil => simp [enqueueTxRequest]
  | cons r rest ih =>
    by_cases h : request.getTimeToLive < r.getTimeToLive
    · simp only [enqueueTxRequest, if_pos h, List.mem_cons]
    · simp only [enqueueTxRequest, if_neg h, List.mem_cons, ih]
      tauto

theorem enqueueTxRequest_sorted (request : TxRequest) (l : List TxRequest)
    (h : l.Pairwise fun a b => a.ttl ≤ b.ttl) :
    (enqueueTxRequest request l).Pairwise fun a b => a.ttl ≤ b.ttl := by
  induction l with
  | nil => simp [enqueueTxRequest]
  | cons r rest ih =>
    rcases List.pairwise_cons.mp h with ⟨hr, hrest⟩
    by_cases hlt : request.getTimeToLive < r.getTimeToLive
    · rw [show enqueueTxRequest request (r :: rest) = request :: r :: rest from
        by simp only [enqueueTxRequest, if_pos hlt]]
      refine List.pairwise_cons.mpr ⟨?_, h⟩
      intro a ha
      rcases List.mem_cons.mp ha with rfl | ha
      · exact le_of_lt hlt
      · exact le_trans (le_of_lt hlt) (hr a ha)
    · rw [show enqueueTxRequest request (r :: rest) =
          r :: enqueueTxRequest request rest from
        by simp only [enqueueTxRequest, if_neg hlt]]
      refine List.pairwise_cons.mpr ⟨?_, ih hrest⟩
      intro a ha
      rcases mem_enqueueTxRequest.mp ha with rfl | ha
      · exact le_of_not_lt hlt
      · exact hr a ha

theorem foldl_enqueueTxRequest_sorted (rs : List TxRequest) (l : List TxRequest)
    (h : l.Pairwise fun a b => a.ttl ≤ b.ttl) :
    (rs.foldl (fun acc r => enqueueTxRequest r acc) l).Pairwise
      fun a b => a.ttl ≤ b.ttl := by
  induction rs generalizing l with
  | nil => exact h
  | cons r rs ih => exact ih _ (enqueueTxRequest_sorted r l h)

theorem enqueueTxRequest_eq_insert_point (request : TxRequest)
    (l : List TxRequest) :
    enqueueTxRequest request l =
      l.takeWhile (fun r => decide (r.ttl ≤ request.ttl)) ++
        request :: l.dropWhile (fun r => decide (r.ttl ≤ request.ttl)) := by
  induction l with
  | nil => simp [enqueueTxRequest]
  | cons r rest ih =>
    by_cases hlt : request.getTimeToLive < r.getTimeToLive
    · have hple : ¬ r.ttl ≤ request.ttl := not_le.mpr hlt
      rw [show enqueueTxRequest request (r :: rest) = request :: r :: rest from
          by simp only [enqueueTxRequest, if_pos hlt]]
      simp [List.takeWhile_cons, List.dropWhile_cons, hple]
    · have hple : r.ttl ≤ request.ttl := le_of_not_lt hlt
      rw [show enqueueTxRequest request (r :: rest) =
            r :: enqueueTxRequest request rest from
          by simp only [enqueueTxRequest, if_neg hlt]]
      simp [List.takeWhile_cons, List.dropWhile_cons, hple, ih]

/-- C4: the request queue order.  First, `enqueueTxRequest` inserts the
new request exactly before the first element with strictly greater
`time_to_live` (so equal-priority items queue behind existing equal or
lower ones).  Second, any queue built by enqueues is sorted ascending by
`time_to_live`.  Third, for arrivals with TTLs `[5, 1, 3, 1]` in that
order, the queue ends up as the first-arrived TTL-1 request, the
second-arrived TTL-1 request, then TTL 3, then TTL 5, so successive head
dequeues yield exactly that order. -/
theorem enqueueTxRequest_stable_ttl_order :
    (∀ (request : TxRequest) (l : List TxRequest),
        enqueueTxRequest request l =
          l.takeWhile (fun r => decide (r.ttl ≤ request.ttl)) ++
            request :: l.dropWhile (fun r => decide (r.ttl ≤ request.ttl))) ∧
    (∀ rs : List TxRequest,
        (rs.foldl (fun acc r => enqueueTxRequest r acc) []).Pairwise
          fun a b => a.ttl ≤ b.ttl) ∧
    [reqT5, reqT1a, reqT3, reqT1b].foldl
        (fun acc r => enqueueTxRequest r acc) [] =
      [reqT1a, reqT1b, reqT3, reqT5] :=
  ⟨enqueueTxRequest_eq_insert_point,
   fun rs => foldl_enqueueTxRequest_sorted rs [] (by simp),
   by decide⟩

/-- A concrete state whose active request carries valid sequence number 42. -/
def sActive : TaskState := ⟨[reqT1a], some (reqT5.setMSN 42), ⟨0, 300⟩⟩

/-- A concrete session result: MO failure with status code 7 for
sequence 42, no MT message. -/
def resFail : SessionResult := ⟨false, 42, 7, 0⟩

theorem invalidateTxRequest_matched (msn err_code : Nat) (s : TaskState)
    (r : TxRequest) (hact : s.tx_request = some r)
    (hvalid : r.msn_valid = true) (hmsn : r.msn = msn) :
    invalidateTxRequest msn err_code s =
      ({ s with
           tx_request := none,
           tx_requests := enqueueTxRequest r.invalidateMSN s.tx_requests },
       [sendTxRequestStatus r.invalidateMSN StatusCode.error
          (StatusText.failedWithError err_code)]) := by
  simp [invalidateTxRequest, hact, TxRequest.hasValidMSN, hvalid, hmsn]

/-- C5: when the session result reports MO failure and its MO sequence
number matches the active request's valid assigned sequence number, the
active request's sequence number is marked invalid, an ERROR status is
reported whose text embeds the driver's numeric MO status code, the
request is reinserted into the queue with its `time_to_live` unchanged
(so a fresh lower-TTL arrival can overtake it), and the active slot is
cleared. -/
theorem mo_failure_invalidates_and_requeues (res : SessionResult)
    (system_id : Nat) (mt : List Nat) (s : TaskState) (r : TxRequest)
    (hact : s.tx_request = some r) (hvalid : r.msn_valid = true)
    (hmsn : r.msn = res.mo_sequence) (hfail : res.mo_success = false) :
    (handleSessionResult res system_id mt s).1.tx_request = none ∧
    (handleSessionResult res system_id mt s).1.tx_requests =
      enqueueTxRequest r.invalidateMSN s.tx_requests ∧
    r.invalidateMSN.msn_valid = false ∧
    r.invalidateMSN.ttl = r.ttl ∧
    sendTxRequestStatus r.invalidateMSN StatusCode.error
        (StatusText.failedWithError res.mo_status) ∈
      (handleSessionResult res system_id mt s).2 := by
  have hinv := invalidateTxRequest_matched res.mo_sequence res.mo_status s r
    hact hvalid hmsn
  unfold handleSessionResult
  rw [hfail]
  by_cases hmt : res.mt_status == 1 <;>
    simp [hmt, hinv, TxRequest.invalidateMSN]

/-- Witness for C5 at a concrete failing session. -/
theorem mo_failure_invalidates_and_requeues_witness :
    (handleSessionResult resFail 3 [] sActive).1.tx_request = none ∧
    (handleSessionResult resFail 3 [] sActive).1.tx_requests =
      enqueueTxRequest (reqT5.setMSN 42).invalidateMSN sActive.tx_requests ∧
    (reqT5.setMSN 42).invalidateMSN.msn_valid = false ∧
    (reqT5.setMSN 42).invalidateMSN.ttl = (reqT5.setMSN 42).ttl ∧
    sendTxRequestStatus (reqT5.setMSN 42).invalidateMSN StatusCode.error
        (StatusText.failedWithError resFail.mo_status) ∈
      (handleSessionResult resFail 3 [] sActive).2 :=
  mo_failure_invalidates_and_requeues resFail 3 [] sActive (reqT5.setMSN 42)
    rfl rfl rfl rfl

/-- C6 counterexample: a session result arriving while no active request
exists is not ignored entirely.  At this concrete input the
mailbox-check timer is reset (the result reports MO success) and inbound
handling dispatches a message (MT status 1), so the orchestrator state
changes and further handling is triggered. -/
theorem session_result_without_active_not_ignored :
    handleSessionResult ⟨true, 0, 0, 1⟩ 7 [0, 1, 170, 187, 204]
        ⟨[], none, ⟨5, 300⟩⟩ =
      (⟨[], none, ⟨0, 300⟩⟩, [Event.msgRx 1 7 [170, 187, 204]]) ∧
    ¬ ((handleSessionResult ⟨true, 0, 0, 1⟩ 7 [0, 1, 170, 187, 204]
          ⟨[], none, ⟨5, 300⟩⟩).1 = ⟨[], none, ⟨5, 300⟩⟩ ∧
       (handleSessionResult ⟨true, 0, 0, 1⟩ 7 [0, 1, 170, 187, 204]
          ⟨[], none, ⟨5, 300⟩⟩).2 = []) := by
  decide

/-- C6 amended: if a session result becomes available while no active
request exists, its MO resolution is a no-op — queue and active slot are
unchanged and no status is reported — but the result is not ignored
entirely: the mailbox-check timer is still reset when the result reports
MO success, and inbound handling still runs when the MT status is 1. -/
theorem session_result_without_active_effects (res : SessionResult)
    (system_id : Nat) (mt : List Nat) (s : TaskState)
    (h : s.tx_request = none) :
    (handleSessionResult res system_id mt s).1.tx_request = none ∧
    (handleSessionResult res system_id mt s).1.tx_requests = s.tx_requests ∧
    (handleSessionResult res system_id mt s).1.mbox_check_timer =
      (if res.mo_success then s.mbox_check_timer.reset
       else s.mbox_check_timer) ∧
    (handleSessionResult res system_id mt s).2 =
      (if res.mt_status == 1 then handleSBD system_id mt else []) ∧
    ∀ a b c code text,
      Event.txStatus a b c code text ∉
        (handleSessionResult res system_id mt s).2 := by
  have hsbd : ∀ a b c code text,
      Event.txStatus a b c code text ∉ handleSBD system_id mt := by
    intro a b c code text
    rcases mt with _ | ⟨b0, _ | ⟨b1, _ | ⟨b2, rest⟩⟩⟩ <;> simp [handleSBD]
  unfold handleSessionResult dequeueTxRequest invalidateTxRequest
  cases hb : res.mo_success <;> by_cases hmt : res.mt_status == 1 <;>
    simp [h, hb, hmt, hsbd]

/-- Witness for the amended C6 at a concrete stale result. -/
theorem session_result_without_active_effects_witness :
    (handleSessionResult ⟨true, 0, 0, 1⟩ 7 [0, 1, 170, 187, 204]
        ⟨[], none, ⟨5, 300⟩⟩).1.tx_request = none ∧
    (handleSessionResult ⟨true, 0, 0, 1⟩ 7 [0, 1, 170, 187, 204]
        ⟨[], none, ⟨5, 300⟩⟩).1.tx_requests =
      (⟨[], none, ⟨5, 300⟩⟩ : TaskState).tx_requests ∧
    (handleSessionResult ⟨true, 0, 0, 1⟩ 7 [0, 1, 170, 187, 204]
        ⟨[], none, ⟨5, 300⟩⟩).1.mbox_check_timer =
      (if (⟨true, 0, 0, 1⟩ : SessionResult).mo_success then
         (⟨[], none, ⟨5, 300⟩⟩ : TaskState).mbox_check_timer.reset
       else (⟨[], none, ⟨5, 300⟩⟩ : TaskState).mbox_check_timer) ∧
    (handleSessionResult ⟨true, 0, 0, 1⟩ 7 [0, 1, 170, 187, 204]
        ⟨[], none, ⟨5, 300⟩⟩).2 =
      (if (⟨true, 0, 0, 1⟩ : SessionResult).mt_status == 1 then
         handleSBD 7 [0, 1, 170, 187, 204]
       else []) ∧
    ∀ a b c code text,
      Event.txStatus a b c code text ∉
        (handleSessionResult ⟨true, 0, 0, 1⟩ 7 [0, 1, 170, 187, 204]
          ⟨[], none, ⟨5, 300⟩⟩).2 :=
  session_result_without_active_effects ⟨true, 0, 0, 1⟩ 7
    [0, 1, 170, 187, 204] ⟨[], none, ⟨5, 300⟩⟩ rfl

/-- C7: resolving a sequence number that does not match the active
request's assigned sequence number, or arriving after that number was
invalidated, leaves the task state unchanged and emits nothing: both
Confirm (`dequeueTxRequest`) and Invalidate (`invalidateTxRequest`) are
guarded no-ops in that case, so a sequence number, once resolved, is
never resolved twice. -/
theorem resolution_guard_noop (msn err_code : Nat) (s : TaskState)
    (r : TxRequest) (hact : s.tx_request = some r)
    (hguard : r.msn_valid = false ∨ r.msn ≠ msn) :
    dequeueTxRequest msn s = (s, []) ∧
    invalidateTxRequest msn err_code s = (s, []) := by
  unfold dequeueTxRequest invalidateTxRequest
  rcases hguard with hv | hm
  · simp [hact, TxRequest.hasValidMSN, hv]
  · simp [hact, TxRequest.hasValidMSN, hm]

/-- Witness for C7: a late result with sequence 43 against an active
request holding valid sequence 42 changes nothing. -/
theorem resolution_guard_noop_witness :
    dequeueTxRequest 43 sActive = (sActive, []) ∧
    invalidateTxRequest 43 9 sActive = (sActive, []) :=
  resolution_guard_noop 43 9 sActive (reqT5.setMSN 42) rfl
    (Or.inr (by decide))

/-- C8: inbound handling turns a read of more than two bytes into one
message whose source address is the first two bytes big-endian, whose
destination is this node and whose payload is the remaining bytes (the
five-byte read `[0, 1, 0xAA, 0xBB, 0xCC]` yields source address 1 and
payload `[0xAA, 0xBB, 0xCC]`); a read of two bytes or fewer only reports
an error and emits no message. -/
theorem handleSBD_parses_big_endian_source :
    (∀ system_id b0 b1 b2 rest,
        handleSBD system_id (b0 :: b1 :: b2 :: rest) =
          [Event.msgRx (Nat.lor (Nat.shiftLeft b0 8) b1) system_id
             (b2 :: rest)]) ∧
    (∀ system_id, handleSBD system_id [] = [Event.errLog 0]) ∧
    (∀ system_id b0, handleSBD system_id [b0] = [Event.errLog 1]) ∧
    (∀ system_id b0 b1, handleSBD system_id [b0, b1] = [Event.errLog 2]) ∧
    handleSBD 7 [0, 1, 170, 187, 204] = [Event.msgRx 1 7 [170, 187, 204]] :=
  ⟨fun _ _ _ _ _ => rfl, fun _ => rfl, fun _ _ => rfl, fun _ _ _ => rfl,
   by decide⟩

/-- C10: every inbound message emitted by `handleSBD` on a read of at
most 340 bytes (the fixed buffer size) has a non-empty payload of at
most 338 bytes. -/
theorem inbound_payload_nonempty_le_338 (system_id : Nat) (bfr : List Nat)
    (hlen : bfr.length ≤ 340) :
    ∀ src dst payload,
      Event.msgRx src dst payload ∈ handleSBD system_id bfr →
        1 ≤ payload.length ∧ payload.length ≤ 338 := by
  intro src dst payload hmem
  rcases bfr with _ | ⟨b0, _ | ⟨b1, _ | ⟨b2, rest⟩⟩⟩ <;>
    simp [handleSBD] at hmem
  rcases hmem with ⟨h1, h2, h3⟩
  subst h3
  refine ⟨by simp, ?_⟩
  simp at hlen ⊢
  omega

/-- Witness for C10 at the five-byte read. -/
theorem inbound_payload_nonempty_le_338_witness :
    1 ≤ ([170, 187, 204] : List Nat).length ∧
    ([170, 187, 204] : List Nat).length ≤ 338 :=
  inbound_payload_nonempty_le_338 7 [0, 1, 170, 187, 204] (by decide) 1 7
    [170, 187, 204] (by decide)

theorem countP_mailbox_dequeueTxRequest (msn : Nat) (s : TaskState) :
    (dequeueTxRequest msn s).2.countP isMailboxPoll = 0 := by
  unfold dequeueTxRequest
  split
  · simp
  · split
    · simp
    · simp [sendTxRequestStatus, isMailboxPoll]

theorem countP_mailbox_invalidateTxRequest (msn err_code : Nat)
    (s : TaskState) :
    (invalidateTxRequest msn err_code s).2.countP isMailboxPoll = 0 := by
  unfold invalidateTxRequest
  split
  · simp
  · split
    · simp
    · simp [sendTxRequestStatus, isMailboxPoll]

theorem countP_mailbox_handleSBD (system_id : Nat) (bfr : List Nat) :
    (handleSBD system_id bfr).countP isMailboxPoll = 0 := by
  rcases bfr with _ | ⟨b0, _ | ⟨b1, _ | ⟨b2, rest⟩⟩⟩ <;>
    simp [handleSBD, isMailboxPoll]

theorem countP_mailbox_handleSessionResult (res : SessionResult)
    (system_id : Nat) (mt : List Nat) (s : TaskState) :
    (handleSessionResult res system_id mt s).2.countP isMailboxPoll = 0 := by
  unfold handleSessionResult
  cases hb : res.mo_success <;> by_cases hmt : res.mt_status == 1 <;>
    simp [hb, hmt, List.countP_append, countP_mailbox_dequeueTxRequest,
      countP_mailbox_invalidateTxRequest, countP_mailbox_handleSBD]

/-- C9: mailbox polling.  First, any cycle triggers at most one mailbox
poll of either kind.  Second, in a cycle where the queue is empty and
the send gates pass (not busy, nonzero RSSI, not cooling, no pending
session result), the poll is the mailbox alert check exactly when
`ring_alert` is set, otherwise the mailbox check exactly when
`queued_mt > 0` or the mailbox-check timer has overflowed — ring alert
takes precedence and the two triggers are mutually exclusive.  Third, no
mailbox poll of either kind occurs in a cycle whose queue is
non-empty. -/
theorem processQueue_mailbox_poll_exclusive (system_id : Nat) :
    (∀ (d : DriverState) (s : TaskState),
        (processQueue d system_id s).2.countP isMailboxPoll ≤ 1) ∧
    (∀ (d : DriverState) (s : TaskState),
        d.busy = false → d.session_result = none → d.rssi ≠ 0 →
        d.cooling = false → s.tx_requests = [] →
        (processQueue d system_id s).2 =
          (if d.ring_alert then [Event.checkMailBoxAlert]
           else if 0 < d.queued_mt || s.mbox_check_timer.overflow then
             [Event.checkMailBox]
           else [])) ∧
    (∀ (d : DriverState) (s : TaskState),
        d.busy = false → d.session_result = none → s.tx_requests ≠ [] →
        (processQueue d system_id s).2.countP isMailboxPoll = 0) := by
  refine ⟨?_, ?_, ?_⟩
  · intro d s
    unfold processQueue
    by_cases hb : d.busy = true
    · simp [hb]
    · have h0 : ∀ res, (handleSessionResult res system_id d.mt_buffer s).2.countP
          isMailboxPoll = 0 :=
        fun res => countP_mailbox_handleSessionResult res system_id d.mt_buffer s
      cases hsr : d.session_result with
      | none =>
        simp only [hb, if_false, Bool.false_eq_true]
        split
        · simp
        · split
          · simp
          · split
            · split
              · simp [isMailboxPoll]
              · split
                · simp [isMailboxPoll]
                · simp
            · simp [isMailboxPoll]
      | some res =>
        simp only [hb, if_false, Bool.false_eq_true]
        split
        · simp [h0]
        · split
          · simp [h0]
          · split
            · split
              · simp [List.countP_append, h0, isMailboxPoll]
              · split
                · simp [List.countP_append, h0, isMailboxPoll]
                · simp [h0]
            · simp [List.countP_append, h0, isMailboxPoll]
  · intro d s hb hsr hr hc hq
    unfold processQueue
    simp only [hb, hsr, hq, Bool.false_eq_true, if_false]
    have hr0 : (d.rssi == 0) = false := by
      simpa using hr
    simp [hr0, hc, hq, apply_ite Prod.snd]
  · intro d s hb hsr hq
    unfold processQueue
    simp only [hb, hsr, Bool.false_eq_true, if_false]
    cases hl : s.tx_requests with
    | nil => exact absurd hl hq
    | cons r rest =>
      by_cases hrs : d.rssi == 0
      · simp [hrs]
      · by_cases hc : d.cooling = true
        · simp [hrs, hc]
        · simp [hrs, hc, hl, isMailboxPoll]

/-- Witness for C9: with an empty queue, open send gates and a ring
alert, the cycle triggers exactly the mailbox alert check. -/
theorem processQueue_mailbox_poll_exclusive_witness :
    (processQueue ⟨false, none, 5, false, true, 0, 42, []⟩ 3
        ⟨[], none, ⟨0, 300⟩⟩).2 =
      (if (⟨false, none, 5, false, true, 0, 42, []⟩ : DriverState).ring_alert then
         [Event.checkMailBoxAlert]
       else if 0 < (⟨false, none, 5, false, true, 0, 42, []⟩ :
             DriverState).queued_mt ||
           (⟨[], none, ⟨0, 300⟩⟩ : TaskState).mbox_check_timer.overflow then
         [Event.checkMailBox]
       else []) :=
  (processQueue_mailbox_poll_exclusive 3).2.1
    ⟨false, none, 5, false, true, 0, 42, []⟩ ⟨[], none, ⟨0, 300⟩⟩
    rfl rfl (by decide) rfl rfl
